import Mathlib

/-!
Verification of the Aeyes backend turn protocol (spec.md) against the source
under src/backend.  The definitions below are a shallow embedding of the
Python source: src/backend/app/api/conversation.py, src/backend/app/api/elements.py,
src/backend/app/services/conversation.py, src/backend/app/services/gemini.py and
src/backend/app/models.py.  External collaborators (the Gemini inference backend)
are modelled as oracles supplying the outcome of each call; Python exceptions are
modelled with Except; Python dicts are modelled as insertion-ordered association
lists.
-/

namespace Aeyes

/-! ### Python string primitives -/

/-- Characters removed by Python str.strip with no argument. -/
def pyWs (c : Char) : Bool :=
  c = ' ' || c = '\t' || c = '\n' || c = '\r' || c = '\x0b' || c = '\x0c'

/-- Python str.strip: drop leading and trailing whitespace. -/
def pyStrip (s : String) : String :=
  ⟨((s.data.dropWhile pyWs).reverse.dropWhile pyWs).reverse⟩

/-- Whether needle occurs as a contiguous run inside hay (Python substring test). -/
def containsRun (needle : List Char) : List Char → Bool
  | [] => needle.isEmpty
  | c :: t => needle.isPrefixOf (c :: t) || containsRun needle t

/-- Python membership test needle in hay on strings. -/
def pyIn (needle hay : String) : Bool := containsRun needle.data hay.data

/-- Index of the last occurrence of a character (Python str.rfind), if any. -/
def lastIdxOfChar (cs : List Char) (c : Char) : Option Nat :=
  (cs.reverse.findIdx? (fun x => x = c)).map (fun i => cs.length - 1 - i)

/-- Python slice l[-limit:].  For limit = 0 Python yields the whole list
(since -0 = 0), otherwise the last limit elements. -/
def pyLastSlice {α : Type} (l : List α) (limit : Nat) : List α :=
  if limit = 0 then l else l.drop (l.length - limit)

/-! ### JSON values and a model of Python json.loads

Numbers keep their source lexeme: the repository never inspects numeric values,
so no arithmetic interpretation is needed.  The parser below follows the JSON
grammar accepted by json.loads, including the trailing "Extra data" check;
divergences (it tolerates leading zeros in numbers and raw control characters
inside strings, which json.loads rejects) only make it more permissive and are
not exercised by any claim. -/

inductive Json where
  | null : Json
  | bool : Bool → Json
  | num : String → Json
  | str : String → Json
  | arr : List Json → Json
  | obj : List (String × Json) → Json

/-- JSON inter-token whitespace accepted by json.loads. -/
def jsonWs (c : Char) : Bool :=
  c = ' ' || c = '\t' || c = '\n' || c = '\r'

def skipWs (cs : List Char) : List Char := cs.dropWhile jsonWs

def isDigitCh (c : Char) : Bool := '0' ≤ c && c ≤ '9'

def hexVal (c : Char) : Option Nat :=
  let n := c.toNat
  if 48 ≤ n && n ≤ 57 then some (n - 48)
  else if 97 ≤ n && n ≤ 102 then some (n - 87)
  else if 65 ≤ n && n ≤ 70 then some (n - 55)
  else none

/-- Parse the body of a JSON string (the opening quote already consumed),
handling the escape sequences json.loads accepts. -/
def parseStrBody : Nat → List Char → List Char → Option (String × List Char)
  | 0, _, _ => none
  | fuel + 1, acc, cs =>
    match cs with
    | [] => none
    | '"' :: rest => some (⟨acc.reverse⟩, rest)
    | '\\' :: e :: rest =>
      if e = '"' then parseStrBody fuel ('"' :: acc) rest
      else if e = '\\' then parseStrBody fuel ('\\' :: acc) rest
      else if e = '/' then parseStrBody fuel ('/' :: acc) rest
      else if e = 'n' then parseStrBody fuel ('\n' :: acc) rest
      else if e = 't' then parseStrBody fuel ('\t' :: acc) rest
      else if e = 'r' then parseStrBody fuel ('\r' :: acc) rest
      else if e = 'b' then parseStrBody fuel ('\x08' :: acc) rest
      else if e = 'f' then parseStrBody fuel ('\x0c' :: acc) rest
      else if e = 'u' then
        match rest with
        | a :: b :: c :: d :: rest2 =>
          match hexVal a, hexVal b, hexVal c, hexVal d with
          | some x1, some x2, some x3, some x4 =>
            parseStrBody fuel (Char.ofNat (((x1 * 16 + x2) * 16 + x3) * 16 + x4) :: acc) rest2
          | _, _, _, _ => none
        | _ => none
      else none
    | c :: rest => parseStrBody fuel (c :: acc) rest

/-- Lex a JSON number, returning its lexeme. -/
def parseNumLex (cs : List Char) : Option (String × List Char) :=
  let p1 : List Char × List Char :=
    match cs with
    | '-' :: t => (['-'], t)
    | _ => ([], cs)
  let ds := p1.2.takeWhile isDigitCh
  if ds.isEmpty then none else
  let cs2 := p1.2.drop ds.length
  let p2 : List Char × List Char :=
    match cs2 with
    | '.' :: t =>
      let fs := t.takeWhile isDigitCh
      if fs.isEmpty then ([], cs2) else ('.' :: fs, t.drop fs.length)
    | _ => ([], cs2)
  let p3 : List Char × List Char :=
    match p2.2 with
    | e :: t =>
      if e = 'e' || e = 'E' then
        let q : List Char × List Char :=
          match t with
          | '+' :: u => (['+'], u)
          | '-' :: u => (['-'], u)
          | _ => ([], t)
        let xs := q.2.takeWhile isDigitCh
        if xs.isEmpty then ([], p2.2) else (e :: (q.1 ++ xs), q.2.drop xs.length)
      else ([], p2.2)
    | _ => ([], p2.2)
  some (⟨p1.1 ++ ds ++ p2.1 ++ p3.1⟩, p3.2)

/-- Replace every non-overlapping occurrence of a (non-empty) pattern, left
to right, as Python str.replace does.  The fuel is the input length: each
step consumes at least one character. -/
def replaceRun (pat rep : List Char) : Nat → List Char → List Char
  | 0, cs => cs
  | fuel + 1, cs =>
    if pat.isPrefixOf cs && !pat.isEmpty then
      rep ++ replaceRun pat rep fuel (cs.drop pat.length)
    else
      match cs with
      | [] => []
      | c :: t => c :: replaceRun pat rep fuel t

/-- Python str.replace for non-empty patterns, as used on the code-fence
markers. -/
def pyReplace (s pat rep : String) : String :=
  ⟨replaceRun pat.data rep.data (s.length + 1) s.data⟩

/-- Insert a key into an object, overwriting in place like a Python dict
(first-insertion position kept, value updated). -/
def insertField (fields : List (String × Json)) (k : String) (v : Json) :
    List (String × Json) :=
  match fields with
  | [] => [(k, v)]
  | (k0, v0) :: rest =>
    if k0 == k then (k0, v) :: rest else (k0, v0) :: insertField rest k v

mutual

def parseVal : Nat → List Char → Option (Json × List Char)
  | 0, _ => none
  | fuel + 1, cs =>
    match skipWs cs with
    | [] => none
    | c :: rest =>
      if c = 'n' then
        if rest.take 3 = ['u', 'l', 'l'] then some (.null, rest.drop 3) else none
      else if c = 't' then
        if rest.take 3 = ['r', 'u', 'e'] then some (.bool true, rest.drop 3) else none
      else if c = 'f' then
        if rest.take 4 = ['a', 'l', 's', 'e'] then some (.bool false, rest.drop 4) else none
      else if c = '"' then
        (parseStrBody (rest.length + 1) [] rest).map (fun p => (.str p.1, p.2))
      else if c = '\x7b' then
        match skipWs rest with
        | '\x7d' :: r2 => some (.obj [], r2)
        | _ => (parseFields fuel [] rest).map (fun p => (.obj p.1, p.2))
      else if c = '[' then
        match skipWs rest with
        | ']' :: r2 => some (.arr [], r2)
        | _ => (parseElems fuel [] rest).map (fun p => (.arr p.1, p.2))
      else if c = '-' || isDigitCh c then
        (parseNumLex (c :: rest)).map (fun p => (.num p.1, p.2))
      else none

def parseFields : Nat → List (String × Json) → List Char →
    Option (List (String × Json) × List Char)
  | 0, _, _ => none
  | fuel + 1, acc, cs =>
    match skipWs cs with
    | '"' :: rest =>
      match parseStrBody (rest.length + 1) [] rest with
      | none => none
      | some (k, r1) =>
        match skipWs r1 with
        | ':' :: r2 =>
          match parseVal fuel r2 with
          | none => none
          | some (v, r3) =>
            match skipWs r3 with
            | ',' :: r4 => parseFields fuel (insertField acc k v) r4
            | '\x7d' :: r4 => some (insertField acc k v, r4)
            | _ => none
        | _ => none
    | _ => none

def parseElems : Nat → List Json → List Char → Option (List Json × List Char)
  | 0, _, _ => none
  | fuel + 1, acc, cs =>
    match parseVal fuel cs with
    | none => none
    | some (v, r1) =>
      match skipWs r1 with
      | ',' :: r2 => parseElems fuel (v :: acc) r2
      | ']' :: r2 => some ((v :: acc).reverse, r2)
      | _ => none

end

/-- Model of Python json.loads: parse one JSON document and reject trailing
data (the "Extra data" error), returning none on any parse failure. -/
def parseJson (s : String) : Option Json :=
  match parseVal (2 * s.length + 2) s.data with
  | none => none
  | some (v, rest) => if (skipWs rest).isEmpty then some v else none

mutual

/-- Serialize a Json value to text (models json.dumps as used for the DOM
payload inside the prompt).  The prompt text is observed by no claim, so the
exact whitespace of json.dumps(..., indent=2) is not reproduced and string
contents are not re-escaped. -/
def dumpJson : Json → String
  | .null => "null"
  | .bool true => "true"
  | .bool false => "false"
  | .num l => l
  | .str s => "\"" ++ s ++ "\""
  | .arr xs => "[" ++ dumpList xs ++ "]"
  | .obj fs => "\x7b" ++ dumpFields fs ++ "\x7d"

def dumpList : List Json → String
  | [] => ""
  | [x] => dumpJson x
  | x :: xs => dumpJson x ++ ", " ++ dumpList xs

def dumpFields : List (String × Json) → String
  | [] => ""
  | [(k, v)] => "\"" ++ k ++ "\": " ++ dumpJson v
  | (k, v) :: xs => "\"" ++ k ++ "\": " ++ dumpJson v ++ ", " ++ dumpFields xs

end

/-- Python truthiness of a JSON-decoded value (None, False, 0, "", [] and
empty dicts are falsy).  A number is falsy exactly when its mantissa has no
non-zero digit. -/
def pyTruthy : Json → Bool
  | .null => false
  | .bool b => b
  | .num l =>
    (l.data.takeWhile (fun c => !(c = 'e' || c = 'E'))).any
      (fun c => '1' ≤ c && c ≤ '9')
  | .str s => !(s == "")
  | .arr xs => !xs.isEmpty
  | .obj fs => !fs.isEmpty

/-- First value bound to a key in a decoded JSON object. -/
def fieldOf (fields : List (String × Json)) (k : String) : Option Json :=
  (fields.find? (fun p => p.1 == k)).map Prod.snd

/-! ### Conversation Store (src/backend/app/services/conversation.py)

The process-wide dict _conversation_history is modelled as an
insertion-ordered association list threaded through the functions that use
it.  A Turn's content is an arbitrary Python object in the source (it is
whatever the model's "response" field decoded to), hence Json here. -/

structure Turn where
  role : String
  content : Json
  timestamp : Nat

/-- The in-memory history: conversation_id to list of turns. -/
abbrev Store := List (String × List Turn)

def storeGet (store : Store) (id : String) : Option (List Turn) :=
  (store.find? (fun p => p.1 == id)).map Prod.snd

def storeSet (store : Store) (id : String) (log : List Turn) : Store :=
  match store with
  | [] => [(id, log)]
  | (k, v) :: rest =>
    if k == id then (k, log) :: rest else (k, v) :: storeSet rest id log

/-- services/conversation.py get_history (lines 11-13): the log for the id,
defaulting to an empty list; the store is returned untouched (read-only). -/
def get_history (conversation_id : String) (store : Store) : List Turn × Store :=
  ((storeGet store conversation_id).getD [], store)

/-- services/conversation.py add_message (lines 16-25): create the log if
absent and append one turn with the current timestamp. -/
def add_message (conversation_id role : String) (content : Json) (now : Nat)
    (store : Store) : Store :=
  storeSet store conversation_id
    ((storeGet store conversation_id).getD [] ++
      [{ role := role, content := content, timestamp := now }])

/-- services/conversation.py clear_history (lines 42-45). -/
def clear_history (conversation_id : String) (store : Store) : Store :=
  store.filter (fun p => !(p.1 == conversation_id))

/-- Rendering of a stored content value inside an f-string
(str of a Python str is itself; the non-string case is unobserved). -/
def renderContent : Json → String
  | .str s => s
  | other => dumpJson other

/-- services/conversation.py format_history_for_prompt (lines 28-39): the last
limit turns rendered as User:/Aeyes: lines, oldest first. -/
def format_history_for_prompt (history : List Turn) (limit : Nat := 6) : String :=
  if history.isEmpty then ""
  else
    "\n\nRecent conversation:\n" ++
      String.join ((pyLastSlice history limit).map (fun msg =>
        (if msg.role == "user" then "User" else "Aeyes") ++ ": " ++
          renderContent msg.content ++ "\n"))

/-- The bounded-window retrieval of spec section 4.1 (recentWindow), realized
in the source as get_history plus the history[-limit:] slice of
format_history_for_prompt; read-only on the store. -/
def recent_window (conversation_id : String) (limit : Nat) (store : Store) :
    List Turn × Store :=
  (pyLastSlice (get_history conversation_id store).1 limit, store)

/-! ### Inference backend (src/backend/app/services/gemini.py)

The external Vertex AI model is an oracle: attempts lists the outcome each
successive model.generate_content invocation would produce (a rate/quota
error, another exception, or response text; an exception raised by the
response.text accessor is folded into the error cases).  generate_content
(lines 39-71) performs no retry, no backoff and no error inspection: it
invokes the model once and lets any exception propagate.  The Nat returned
counts model invocations. -/

inductive GenError where
  | notInitialized : GenError
  | rateLimited : GenError
  | other : String → GenError

def GenError.msg : GenError → String
  | .notInitialized => "Gemini model not initialized"
  | .rateLimited => "429 Resource has been exhausted"
  | .other m => m

structure Env where
  modelConfigured : Bool
  attempts : List (Except GenError String)

/-- services/gemini.py generate_content (lines 39-71): raise RuntimeError if
the model is not initialized, otherwise a single model invocation whose
outcome is propagated as-is. -/
def generate_content (env : Env) (_prompt : String) :
    Except GenError String × Nat :=
  if env.modelConfigured then
    (env.attempts.headD (Except.error (GenError.other "no response")), 1)
  else
    (Except.error GenError.notInitialized, 0)

/-! ### Pydantic models (src/backend/app/models.py)

ConversationResponse (models.py lines 30-36) declares the fields
response/actions/post_analysis/requiresFollowUp/conversation_id and no
completed field; pydantic silently ignores unknown keyword arguments, so the
completed= argument the handler passes is recorded separately in TurnOutcome
as the (dropped) keyword argument.  Validation of ill-typed field values
raises; pydantic's lax coercions (such as the string "true" for a bool
field) are not modelled, and no claim exercises them. -/

structure Action where
  type : String
  args : List (String × Json)

structure PageContext where
  url : String
  title : String
  width : Int
  height : Int
  tabId : Option Int

structure ConversationRequest where
  transcript : String
  context : Option (List (String × Json))
  page_context : Option PageContext
  conversation_id : Option String

structure ConversationResponse where
  response : String
  actions : Option (List Action)
  post_analysis : Option (List Action)
  requiresFollowUp : Bool
  conversation_id : Option String

/-- The handler's full set of constructor arguments: the pydantic model plus
the completed keyword argument that the model does not declare. -/
structure TurnOutcome where
  resp : ConversationResponse
  completedArg : Json

/-- Python exceptions that can be raised inside the handler's try block. -/
inductive PyErr where
  | genError : GenError → PyErr
  | jsonDecodeError : String → PyErr
  | attributeError : String → PyErr
  | validationError : String → PyErr
  | typeError : String → PyErr

/-- Models str(e) in the f-string of the generic apology (exact Python
wording of stdlib messages is not reproduced; no claim compares it). -/
def PyErr.msg : PyErr → String
  | .genError g => g.msg
  | .jsonDecodeError m => m
  | .attributeError m => m
  | .validationError m => m
  | .typeError m => m

def actionToJson (a : Action) : Json :=
  .obj [("type", .str a.type), ("args", .obj a.args)]

def optActionsToJson : Option (List Action) → Json
  | none => .null
  | some l => .arr (l.map actionToJson)

/-- Serialization of the response model, as FastAPI emits it: exactly the
declared fields, in declaration order. -/
def serializeResponse (r : ConversationResponse) : List (String × Json) :=
  [("response", .str r.response),
   ("actions", optActionsToJson r.actions),
   ("post_analysis", optActionsToJson r.post_analysis),
   ("requiresFollowUp", .bool r.requiresFollowUp),
   ("conversation_id", match r.conversation_id with
                       | none => .null
                       | some s => .str s)]

/-! ### Turn handler (src/backend/app/api/conversation.py) -/

/-- parsed.get(key, default): raises AttributeError when the decoded value is
not an object. -/
def pyGet (j : Json) (key : String) (default : Json) : Except PyErr Json :=
  match j with
  | .obj fields => .ok ((fieldOf fields key).getD default)
  | _ => .error (.attributeError "object has no attribute get")

/-- Action(type=act["type"], args=act.get("args", \x7b\x7d)) under pydantic
validation: type must be a str and args, defaulting to an empty dict, must be
a dict; anything else raises a ValidationError. -/
def buildAction (fields : List (String × Json)) : Except PyErr Action :=
  match (fieldOf fields "type").getD .null,
        (fieldOf fields "args").getD (.obj []) with
  | .str t, .obj kvs => .ok { type := t, args := kvs }
  | _, _ => .error (.validationError "validation error for Action")

/-- Whether an entry enters the normalizer's accept branch:
isinstance(act, dict) and "type" in act. -/
def isActionCandidate (j : Json) : Bool :=
  match j with
  | .obj fields => (fieldOf fields "type").isSome
  | _ => false

/-- The for-loop of conversation.py lines 102-104 / 109-111 over a decoded
list: keep dict entries that have a "type" key, dropping the rest; a kept
entry whose fields fail Action validation aborts the loop with the raised
error. -/
def normalizeLoop : List Json → Except PyErr (List Action)
  | [] => .ok []
  | x :: rest =>
    match x with
    | .obj fields =>
      if (fieldOf fields "type").isSome then
        match buildAction fields with
        | .ok a => (normalizeLoop rest).map (fun l => a :: l)
        | .error e => .error e
      else normalizeLoop rest
    | _ => normalizeLoop rest

/-- conversation.py lines 99-104 (and identically 106-111): the guard
`if raw_actions:` skips falsy values; iterating a string visits its characters
and iterating a dict visits its keys (never dicts, so nothing is kept);
iterating any other truthy non-list raises TypeError. -/
def normalize_actions (raw : Json) : Except PyErr (List Action) :=
  if !pyTruthy raw then .ok []
  else
    match raw with
    | .arr xs => normalizeLoop xs
    | .str _ => .ok []
    | .obj _ => .ok []
    | _ => .error (.typeError "object is not iterable")

/-- conversation.py lines 86-90: the turn handler's parse chain has exactly
two stages: a strict json.loads of the stripped text, then a retry after
deleting every triple-backtick code-fence marker.  A second failure raises
JSONDecodeError out of the inner try. -/
def parse_llm_response (raw_text : String) : Except PyErr Json :=
  let response_text := pyStrip raw_text
  match parseJson response_text with
  | some parsed => .ok parsed
  | none =>
    let cleaned := pyStrip (pyReplace (pyReplace response_text "\x60\x60\x60json" "")
      "\x60\x60\x60" "")
    match parseJson cleaned with
    | some parsed => .ok parsed
    | none => .error (.jsonDecodeError "Expecting value")

def renderTabId : Option Int → String
  | none => "None"
  | some n => toString n

/-- The system prompt of app/core/prompts.py; its full text (about 300 lines
of protocol instructions) is elided to its first line because no claim
observes prompt contents. -/
def SYSTEM_PROMPT : String :=
  "You are Aeyes, a voice assistant for BLIND and visually impaired users navigating the web."

/-- conversation.py lines 57-67: the PAGE CONTEXT block and the DOM block.
An absent or empty context dict contributes nothing (Python truthiness). -/
def buildContextStr (req : ConversationRequest) : String :=
  (match req.page_context with
   | some pc =>
     "\nPAGE CONTEXT:\nURL: " ++ pc.url ++ "\nTitle: " ++ pc.title ++
       "\nSize: " ++ toString pc.width ++ "x" ++ toString pc.height ++
       "\nTabID: " ++ renderTabId pc.tabId ++ "\n"
   | none => "") ++
  (match req.context with
   | some fields =>
     if fields.isEmpty then ""
     else "\nDOM ELEMENTS/DATA:\n" ++ dumpJson (.obj fields) ++ "\n"
   | none => "")

/-- conversation.py lines 69-74. -/
def buildPrompt (user_text history_text context_str : String) : String :=
  "User request: \"" ++ user_text ++ "\"\n" ++ history_text ++ "\n" ++
    context_str ++ "\n\n" ++
    "Analyze the request and context. Respond with JSON based on the System Protocol."

/-- The ConversationResponse(...) constructor call of lines 115-122, under
pydantic validation: response must be a str, requiresFollowUp a bool; the
undeclared completed keyword is accepted unvalidated and dropped (recorded in
TurnOutcome.completedArg). -/
def mkConversationResponse (resp : Json) (acts post : Option (List Action))
    (follow completedArg : Json) (cid : Option String) :
    Except PyErr TurnOutcome :=
  match resp, follow with
  | .str s, .bool b =>
    .ok { resp := { response := s, actions := acts, post_analysis := post,
                    requiresFollowUp := b, conversation_id := cid },
          completedArg := completedArg }
  | _, _ => .error (.validationError "validation error for ConversationResponse")

/-- conversation.py lines 82-122: everything after the inference call inside
the try block, from stripping response.text to the final constructor.  An
error carries the store at the moment the exception is raised: the global
dict mutation of line 113 (appending the assistant turn) survives a later
exception from the response constructor. -/
def afterInference (now : Nat) (candidate_id : String) (store1 : Store)
    (text : String) : Except (PyErr × Store) (TurnOutcome × Store) :=
  match parse_llm_response text with
  | .error e => .error (e, store1)
  | .ok parsed =>
    match pyGet parsed "response" (.str "") with
    | .error e => .error (e, store1)
    | .ok assistant_response =>
      match pyGet parsed "actions" (.arr []),
            pyGet parsed "requiresFollowUp" (.bool false),
            pyGet parsed "completed" (.bool false),
            pyGet parsed "post_analysis" (.arr []) with
      | .ok raw_actions, .ok requires_follow_up, .ok completed_flag,
        .ok raw_post_analysis =>
        match normalize_actions raw_actions with
        | .error e => .error (e, store1)
        | .ok valid_actions =>
          match normalize_actions raw_post_analysis with
          | .error e => .error (e, store1)
          | .ok valid_post_analysis =>
            let store2 :=
              add_message candidate_id "assistant" assistant_response now store1
            match mkConversationResponse assistant_response (some valid_actions)
                (if valid_post_analysis.isEmpty then none
                 else some valid_post_analysis)
                requires_follow_up completed_flag (some candidate_id) with
            | .error e => .error (e, store2)
            | .ok outcome => .ok (outcome, store2)
      | _, _, _, _ => .error (.attributeError "object has no attribute get", store1)

/-- conversation.py lines 54-122: the try block.  Prompt assembly (lines
55-77) cannot raise; the inference call is the oracle; the Nat counts model
invocations made before the block ended. -/
def conversationTry (env : Env) (now : Nat) (req : ConversationRequest)
    (user_text candidate_id : String) (store1 : Store) (history : List Turn) :
    Except (PyErr × Store) (TurnOutcome × Store) × Nat :=
  let history_text := format_history_for_prompt history
  let context_str := buildContextStr req
  let full_prompt :=
    SYSTEM_PROMPT ++ "\n\n" ++ buildPrompt user_text history_text context_str
  match generate_content env full_prompt with
  | (.error e, n) => (.error (.genError e, store1), n)
  | (.ok text, n) => (afterInference now candidate_id store1 text, n)

/-- conversation.py line 47: request.conversation_id or str(uuid.uuid4()) —
the caller's id unless absent or empty (Python or-truthiness), else the
fresh uuid. -/
def candidateId (uuid : String) (req : ConversationRequest) : String :=
  match req.conversation_id with
  | some s => if s == "" then uuid else s
  | none => uuid

/-- src/backend/app/api/conversation.py, the conversation endpoint handler
(lines 24-131).  Inputs beyond the request are the oracle env, the uuid that
uuid.uuid4 would produce, the current time and the store; the result carries
the constructed response, the store afterwards, and the number of model
invocations.  The outer Except records an exception escaping the handler:
the two early exits and the try/except make every path return ok. -/
def conversation (env : Env) (uuid : String) (now : Nat)
    (req : ConversationRequest) (store : Store) :
    Except PyErr (TurnOutcome × Store × Nat) :=
  let user_text := pyStrip req.transcript
  if user_text == "" then
    .ok ({ resp := { response := "I didn\x27t catch that. Could you repeat?",
                     actions := none, post_analysis := none,
                     requiresFollowUp := false, conversation_id := none },
           completedArg := .bool true }, store, 0)
  else if !env.modelConfigured then
    .ok ({ resp := { response := "Gemini not configured. You said: " ++ user_text,
                     actions := none, post_analysis := none,
                     requiresFollowUp := false, conversation_id := none },
           completedArg := .bool true }, store, 0)
  else
    let candidate_id := candidateId uuid req
    let existed := (storeGet store candidate_id).isSome
    let store1 := add_message candidate_id "user" (.str user_text) now store
    -- Python aliasing (lines 50-55): the history variable references the
    -- stored list object, so the user turn appended on line 52 is visible
    -- through it when the log already existed; for a fresh conversation
    -- get_history returned a new empty list that add_message did not touch.
    let history := if existed then (get_history candidate_id store1).1 else []
    match conversationTry env now req user_text candidate_id store1 history with
    | (.ok (outcome, store2), n) => .ok (outcome, store2, n)
    | (.error (e, storeAtRaise), n) =>
      .ok ({ resp := { response := "I had a problem processing that. Error: " ++ e.msg,
                       actions := none, post_analysis := none,
                       requiresFollowUp := false,
                       conversation_id := some candidate_id },
             completedArg := .bool true }, storeAtRaise, n)

/-! ### Element-resolution parse chain (src/backend/app/api/elements.py)

resolve_element (lines 50-66) cleans the model text differently from the
turn handler: a regex-based fence extraction, then a first-brace-to-last-brace
slice, then a single json.loads. -/

/-- Python regex whitespace class (ASCII). -/
def isRegexWs (c : Char) : Bool :=
  c = ' ' || c = '\t' || c = '\n' || c = '\r' || c = '\x0b' || c = '\x0c'

/-- After the non-greedy group starts, scan for the closing fence, preferring
to leave a final newline outside the group (the pattern tail is an optional
newline then three backticks). -/
def fenceCloseScan (acc rem : List Char) : Option (List Char) :=
  if ['\n', '\x60', '\x60', '\x60'].isPrefixOf rem then some acc.reverse
  else if ['\x60', '\x60', '\x60'].isPrefixOf rem then some acc.reverse
  else
    match rem with
    | [] => none
    | c :: r => fenceCloseScan (c :: acc) r

/-- Match the fence pattern at a position just after an opening triple
backtick: an optional json tag, greedy whitespace, then the non-greedy
group up to the closing fence. -/
def fenceMatchAt (cs : List Char) : Option (List Char) :=
  fenceCloseScan []
    ((if (['j', 's', 'o', 'n'] : List Char).isPrefixOf cs then cs.drop 4 else cs).dropWhile
      isRegexWs)

/-- re.search with the fence pattern (DOTALL): try each start position left to
right, anchoring on a literal triple backtick, and return group(1). -/
def fenceSearch : List Char → Option (List Char)
  | [] => none
  | c :: rest =>
    if (['\x60', '\x60', '\x60'] : List Char).isPrefixOf (c :: rest) then
      match fenceMatchAt (rest.drop 2) with
      | some g => some g
      | none => fenceSearch rest
    else fenceSearch rest

/-- elements.py lines 61-64: slice from the first opening brace to the last
closing brace when the first strictly precedes the last. -/
def braceSlice (s : String) : String :=
  match s.data.findIdx? (fun x => x = '\x7b'), lastIdxOfChar s.data '\x7d' with
  | some i, some j => if i < j then ⟨(s.data.drop i).take (j + 1 - i)⟩ else s
  | _, _ => s

/-- elements.py lines 52-66: strip, fence-regex extraction when a fence
marker occurs, brace-span slice, then a single json.loads. -/
def resolve_element_parse (raw_text : String) : Except PyErr Json :=
  let response_text := pyStrip raw_text
  let t1 :=
    if pyIn "\x60\x60\x60" response_text then
      match fenceSearch response_text.data with
      | some g => pyStrip ⟨g⟩
      | none => response_text
    else response_text
  let t2 := braceSlice t1
  match parseJson t2 with
  | some j => .ok j
  | none => .error (.jsonDecodeError "Expecting value")

/-! ### Definitions supporting the claims -/

/-- An entry of a raw action list that enters the normalizer's accept branch
and also passes Action validation: a dict with a string "type" whose "args",
when present, is itself a dict. -/
def wellFormedEntry (j : Json) : Bool :=
  match j with
  | .obj fields =>
    match fieldOf fields "type" with
    | some (.str _) =>
      match fieldOf fields "args" with
      | none => true
      | some (.obj _) => true
      | some _ => false
    | _ => false
  | _ => false

/-- The canonical action a single well-formed entry normalizes to ("args"
defaulting to an empty dict when absent); none for entries the normalizer
drops or rejects. -/
def canonEntry (j : Json) : Option Action :=
  match j with
  | .obj fields =>
    match (fieldOf fields "type").getD .null,
          (fieldOf fields "args").getD (.obj []) with
    | .str t, .obj kvs => some { type := t, args := kvs }
    | _, _ => none
  | _ => none

/-- Scenario D raw model text of spec section 8: prose around an embedded
JSON object. -/
def scenarioD : String :=
  "Sure! \x7b\"actions\": [], \"completed\": true\x7d Hope that helps!"

/-- The JSON object embedded in scenario D. -/
def scenarioDJson : Json :=
  .obj [("actions", .arr []), ("completed", .bool true)]

/-! ### Supporting lemmas -/

theorem isPrefixOf_self (l : List Char) : l.isPrefixOf l = true := by
  induction l with
  | nil => rfl
  | cons c t ih => simp [List.isPrefixOf, ih]

theorem containsRun_suffix (n p : List Char) : containsRun n (p ++ n) = true := by
  induction p with
  | nil =>
    cases n with
    | nil => rfl
    | cons c t => simp [containsRun, List.isPrefixOf_iff_prefix]
  | cons c t ih => simp [containsRun, ih]

theorem pyIn_suffix (p n : String) : pyIn n (p ++ n) = true := by
  unfold pyIn
  rw [String.data_append]
  exact containsRun_suffix n.data p.data

/-! ### The claims -/

/-- C1 (code bug): the pydantic response model declares no completed field,
so the caller-facing serialization of every turn omits it even though the
handler passes completed=True: at a concrete turn the serialized keys are
exactly response/actions/post_analysis/requiresFollowUp/conversation_id,
with no boolean completed among them, while the dropped keyword argument was
the boolean true. -/
theorem serialized_response_omits_completed :
    conversation ⟨false, []⟩ "uuid-1" 0
        { transcript := "hi", context := none, page_context := none,
          conversation_id := some "abc" } [] =
      Except.ok ({ resp := { response := "Gemini not configured. You said: hi",
                             actions := none, post_analysis := none,
                             requiresFollowUp := false, conversation_id := none },
                   completedArg := Json.bool true }, [], 0) ∧
    (serializeResponse { response := "Gemini not configured. You said: hi",
                         actions := none, post_analysis := none,
                         requiresFollowUp := false,
                         conversation_id := none }).map Prod.fst =
      ["response", "actions", "post_analysis", "requiresFollowUp",
       "conversation_id"] ∧
    "completed" ∉ (serializeResponse { response := "Gemini not configured. You said: hi",
                                       actions := none, post_analysis := none,
                                       requiresFollowUp := false,
                                       conversation_id := none }).map Prod.fst :=
  ⟨rfl, rfl, by decide⟩

/-- C2: no exception escapes the turn handler: on every input (any oracle
outcome, any request, any store) the handler returns a well-formed response
value rather than propagating an error. -/
theorem conversation_never_raises (env : Env) (uuid : String) (now : Nat)
    (req : ConversationRequest) (store : Store) :
    ∃ out store2 n,
      conversation env uuid now req store = Except.ok (out, store2, n) := by
  simp only [conversation]
  split
  · exact ⟨_, _, _, rfl⟩
  · split
    · exact ⟨_, _, _, rfl⟩
    · split
      · exact ⟨_, _, _, rfl⟩
      · exact ⟨_, _, _, rfl⟩

/-- C3 (counterexample): on scenario D text the turn handler's parse chain
fails (both of its stages reject the prose-wrapped object) even though the
brace-span slice of that text is exactly the valid embedded JSON object: the
turn protocol's parser has no brace-span third stage. -/
theorem turn_parser_lacks_brace_span :
    parse_llm_response scenarioD =
      Except.error (.jsonDecodeError "Expecting value") ∧
    parseJson (braceSlice scenarioD) = some scenarioDJson :=
  ⟨rfl, rfl⟩

/-- C3 (amended): the first-brace-to-last-brace fallback exists only in the
element-resolution parser (resolve_element), which extracts the embedded
object from scenario D, while the turn handler's two-stage parser fails on
the same text and so the turn surfaces the generic error apology. -/
theorem brace_span_in_resolve_element_only :
    resolve_element_parse scenarioD = Except.ok scenarioDJson ∧
    conversation ⟨true, [Except.ok scenarioD]⟩ "U" 3
        { transcript := "hello", context := none, page_context := none,
          conversation_id := some "c9" } [] =
      Except.ok ({ resp := { response := "I had a problem processing that. Error: Expecting value",
                             actions := none, post_analysis := none,
                             requiresFollowUp := false,
                             conversation_id := some "c9" },
                   completedArg := Json.bool true },
        [("c9", [{ role := "user", content := Json.str "hello", timestamp := 3 }])],
        1) :=
  ⟨rfl, rfl⟩

/-- C4 (counterexample): on an all-whitespace transcript the handler passes
actions=None, not an empty list: the returned actions value is null rather
than the empty list the claim states. -/
theorem empty_transcript_actions_null_not_empty_list :
    conversation ⟨false, []⟩ "uuid-0" 0
        { transcript := "   ", context := none, page_context := none,
          conversation_id := some "abc" } [] =
      Except.ok ({ resp := { response := "I didn\x27t catch that. Could you repeat?",
                             actions := none, post_analysis := none,
                             requiresFollowUp := false, conversation_id := none },
                   completedArg := Json.bool true }, [], 0) ∧
    (none : Option (List Action)) ≠ some [] :=
  ⟨rfl, by simp⟩

/-- C4 (amended): for every transcript that is empty after trimming, the turn
returns exactly the fixed apology with a null actions value (no actions),
passes completed=True, performs no inference call, and leaves the store
untouched. -/
theorem empty_transcript_fixed_apology (env : Env) (uuid : String) (now : Nat)
    (req : ConversationRequest) (store : Store)
    (h : pyStrip req.transcript = "") :
    conversation env uuid now req store =
      Except.ok ({ resp := { response := "I didn\x27t catch that. Could you repeat?",
                             actions := none, post_analysis := none,
                             requiresFollowUp := false, conversation_id := none },
                   completedArg := Json.bool true }, store, 0) := by
  simp [conversation, h]

theorem empty_transcript_fixed_apology_witness :
    pyStrip " \t " = "" ∧
    conversation ⟨true, []⟩ "u" 3
        { transcript := " \t ", context := none, page_context := none,
          conversation_id := some "c" } [] =
      Except.ok ({ resp := { response := "I didn\x27t catch that. Could you repeat?",
                             actions := none, post_analysis := none,
                             requiresFollowUp := false, conversation_id := none },
                   completedArg := Json.bool true }, [], 0) :=
  ⟨rfl, empty_transcript_fixed_apology ⟨true, []⟩ "u" 3
    { transcript := " \t ", context := none, page_context := none,
      conversation_id := some "c" } [] rfl⟩

/-- C5 (counterexample): with the backend unconfigured and the transcript
" hi ", the echo response contains the trimmed text but not the original
transcript (the surrounding whitespace is stripped before echoing). -/
theorem echo_omits_raw_transcript :
    conversation ⟨false, []⟩ "u" 0
        { transcript := " hi ", context := none, page_context := none,
          conversation_id := none } [] =
      Except.ok ({ resp := { response := "Gemini not configured. You said: hi",
                             actions := none, post_analysis := none,
                             requiresFollowUp := false, conversation_id := none },
                   completedArg := Json.bool true }, [], 0) ∧
    pyIn " hi " "Gemini not configured. You said: hi" = false :=
  ⟨rfl, rfl⟩

/-- C5 (amended): for every transcript that is non-empty after trimming, when
the inference backend is not configured the turn returns a textual echo
containing the trimmed transcript, passes completed=True, and attempts no
inference call. -/
theorem backend_unavailable_echo (env : Env) (uuid : String) (now : Nat)
    (req : ConversationRequest) (store : Store)
    (h1 : ¬ pyStrip req.transcript = "") (h2 : env.modelConfigured = false) :
    conversation env uuid now req store =
      Except.ok ({ resp := { response := "Gemini not configured. You said: " ++
                               pyStrip req.transcript,
                             actions := none, post_analysis := none,
                             requiresFollowUp := false, conversation_id := none },
                   completedArg := Json.bool true }, store, 0) ∧
    pyIn (pyStrip req.transcript)
      ("Gemini not configured. You said: " ++ pyStrip req.transcript) = true := by
  refine ⟨?_, pyIn_suffix _ _⟩
  simp [conversation, h1, h2]

theorem backend_unavailable_echo_witness :
    ¬ pyStrip "hi" = "" ∧ (⟨false, []⟩ : Env).modelConfigured = false ∧
    (conversation ⟨false, []⟩ "u" 0
        { transcript := "hi", context := none, page_context := none,
          conversation_id := none } [] =
      Except.ok ({ resp := { response := "Gemini not configured. You said: " ++
                               pyStrip "hi",
                             actions := none, post_analysis := none,
                             requiresFollowUp := false, conversation_id := none },
                   completedArg := Json.bool true }, [], 0) ∧
     pyIn (pyStrip "hi")
       ("Gemini not configured. You said: " ++ pyStrip "hi") = true) :=
  ⟨by decide, rfl,
    backend_unavailable_echo ⟨false, []⟩ "u" 0
      { transcript := "hi", context := none, page_context := none,
        conversation_id := none } [] (by decide) rfl⟩

/-- A dropped entry (not a dict with a "type" key) has no canonical form. -/
theorem canonEntry_none_of_not_candidate (j : Json)
    (h : isActionCandidate j = false) : canonEntry j = none := by
  cases j with
  | obj fields =>
    unfold isActionCandidate at h
    unfold canonEntry
    dsimp only at h ⊢
    cases hf : fieldOf fields "type" with
    | none => simp [hf]
    | some v => rw [hf] at h; simp at h
  | null => rfl
  | bool b => rfl
  | num l => rfl
  | str s => rfl
  | arr xs => rfl

/-- A well-formed entry passes Action validation and its canonical form is
exactly the validated action. -/
theorem buildAction_of_wf (fields : List (String × Json))
    (h : wellFormedEntry (.obj fields) = true) :
    ∃ a, buildAction fields = Except.ok a ∧
      canonEntry (.obj fields) = some a := by
  unfold wellFormedEntry at h
  unfold buildAction canonEntry
  dsimp only at h ⊢
  cases hty : fieldOf fields "type" with
  | none => rw [hty] at h; simp at h
  | some tv =>
    rw [hty] at h
    cases tv with
    | str t =>
      cases hargs : fieldOf fields "args" with
      | none => exact ⟨{ type := t, args := [] }, by simp [hty, hargs]⟩
      | some av =>
        cases av with
        | obj kvs => exact ⟨{ type := t, args := kvs }, by simp [hty, hargs]⟩
        | null => rw [hargs] at h; simp at h
        | bool b => rw [hargs] at h; simp at h
        | num l => rw [hargs] at h; simp at h
        | str s => rw [hargs] at h; simp at h
        | arr xs => rw [hargs] at h; simp at h
    | null => simp at h
    | bool b => simp at h
    | num l => simp at h
    | arr xs => simp at h
    | obj f2 => simp at h

theorem canonEntry_some_of_wf (j : Json) (h : wellFormedEntry j = true) :
    ∃ a, canonEntry j = some a := by
  cases j with
  | obj fields =>
    obtain ⟨a, _, hc⟩ := buildAction_of_wf fields h
    exact ⟨a, hc⟩
  | null => simp [wellFormedEntry] at h
  | bool b => simp [wellFormedEntry] at h
  | num l => simp [wellFormedEntry] at h
  | str s => simp [wellFormedEntry] at h
  | arr xs => simp [wellFormedEntry] at h

/-- The normalizer loop keeps exactly the canonical forms, in order, when
every kept entry is well formed. -/
theorem normalizeLoop_wf (xs : List Json)
    (h : ∀ x ∈ xs, isActionCandidate x = true → wellFormedEntry x = true) :
    normalizeLoop xs = Except.ok (xs.filterMap canonEntry) := by
  induction xs with
  | nil => rfl
  | cons x rest ih =>
    have hrest : ∀ y ∈ rest, isActionCandidate y = true → wellFormedEntry y = true :=
      fun y hy => h y (List.mem_cons_of_mem _ hy)
    cases x with
    | obj fields =>
      by_cases hc : (fieldOf fields "type").isSome = true
      · have hwf : wellFormedEntry (.obj fields) = true :=
          h _ (List.mem_cons_self _ _) (by simpa [isActionCandidate] using hc)
        obtain ⟨a, hba, hca⟩ := buildAction_of_wf fields hwf
        simp [normalizeLoop, hc, hba, List.filterMap_cons, hca, ih hrest,
          Except.map]
      · have hcanon : canonEntry (.obj fields) = none :=
          canonEntry_none_of_not_candidate _
            (by simpa [isActionCandidate] using hc)
        simp [normalizeLoop, hc, List.filterMap_cons, hcanon, ih hrest]
    | null => simpa [normalizeLoop, List.filterMap_cons, canonEntry] using ih hrest
    | bool b => simpa [normalizeLoop, List.filterMap_cons, canonEntry] using ih hrest
    | num l => simpa [normalizeLoop, List.filterMap_cons, canonEntry] using ih hrest
    | str s => simpa [normalizeLoop, List.filterMap_cons, canonEntry] using ih hrest
    | arr l => simpa [normalizeLoop, List.filterMap_cons, canonEntry] using ih hrest

/-- Under well-formedness the kept entries are exactly the accept-branch
entries: one canonical action per dict-with-"type" entry. -/
theorem filterMap_canon_length (xs : List Json)
    (h : ∀ x ∈ xs, isActionCandidate x = true → wellFormedEntry x = true) :
    (xs.filterMap canonEntry).length = (xs.filter isActionCandidate).length := by
  induction xs with
  | nil => rfl
  | cons x rest ih =>
    have hrest : ∀ y ∈ rest, isActionCandidate y = true → wellFormedEntry y = true :=
      fun y hy => h y (List.mem_cons_of_mem _ hy)
    by_cases hc : isActionCandidate x = true
    · obtain ⟨a, hca⟩ := canonEntry_some_of_wf x (h x (List.mem_cons_self _ _) hc)
      simp [List.filterMap_cons, hca, List.filter_cons, hc, ih hrest]
    · have hcanon := canonEntry_none_of_not_candidate x (by simpa using hc)
      simp [List.filterMap_cons, hcanon, List.filter_cons, hc, ih hrest]

/-- C6 (counterexample): an entry that is a dict with a "type" key but whose
"args" is not a dict does not normalize to a canonical action: Action
validation raises, aborting the whole normalization (and hence the turn)
instead of yielding the one action the claim promises for N = 1. -/
theorem normalize_actions_rejects_nondict_args :
    normalize_actions
        (.arr [.obj [("type", .str "click"), ("args", .num "5")]]) =
      Except.error (.validationError "validation error for Action") ∧
    isActionCandidate (.obj [("type", .str "click"), ("args", .num "5")]) = true :=
  ⟨rfl, rfl⟩

/-- C6 (amended): for raw action lists whose dict-with-"type" entries all
carry a string "type" and, when present, a dict "args", normalization yields
exactly one canonical action per such entry, in the original order, with
"args" defaulting to an empty dict when absent; the primary and
post-analysis lists are normalized by separate applications whose results
depend only on their own list and are never merged. -/
theorem normalize_actions_spec (xs ys : List Json)
    (hx : ∀ x ∈ xs, isActionCandidate x = true → wellFormedEntry x = true)
    (hy : ∀ y ∈ ys, isActionCandidate y = true → wellFormedEntry y = true) :
    normalize_actions (.arr xs) = Except.ok (xs.filterMap canonEntry) ∧
    normalize_actions (.arr ys) = Except.ok (ys.filterMap canonEntry) ∧
    (xs.filterMap canonEntry).length = (xs.filter isActionCandidate).length ∧
    (ys.filterMap canonEntry).length = (ys.filter isActionCandidate).length ∧
    (∀ t fields, fieldOf fields "type" = some (Json.str t) →
      fieldOf fields "args" = none →
      canonEntry (.obj fields) = some { type := t, args := [] }) := by
  refine ⟨?_, ?_, filterMap_canon_length xs hx, filterMap_canon_length ys hy, ?_⟩
  · cases xs with
    | nil => rfl
    | cons a l =>
      simpa [normalize_actions, pyTruthy] using normalizeLoop_wf _ hx
  · cases ys with
    | nil => rfl
    | cons a l =>
      simpa [normalize_actions, pyTruthy] using normalizeLoop_wf _ hy
  · intro t fields h1 h2
    simp [canonEntry, h1, h2]

theorem normalize_actions_spec_witness :
    (∀ x ∈ ([.obj [("type", Json.str "click")], .str "junk",
             .obj [("type", Json.str "say"),
                   ("args", Json.obj [("text", Json.str "hi")])]] : List Json),
      isActionCandidate x = true → wellFormedEntry x = true) ∧
    (∀ y ∈ ([.obj [("type", Json.str "scan_page")]] : List Json),
      isActionCandidate y = true → wellFormedEntry y = true) ∧
    (normalize_actions (.arr [.obj [("type", Json.str "click")], .str "junk",
        .obj [("type", Json.str "say"),
              ("args", Json.obj [("text", Json.str "hi")])]]) =
      Except.ok ([.obj [("type", Json.str "click")], .str "junk",
        .obj [("type", Json.str "say"),
              ("args", Json.obj [("text", Json.str "hi")])]].filterMap canonEntry) ∧
     normalize_actions (.arr [.obj [("type", Json.str "scan_page")]]) =
      Except.ok ([.obj [("type", Json.str "scan_page")]].filterMap canonEntry) ∧
     ([.obj [("type", Json.str "click")], .str "junk",
        .obj [("type", Json.str "say"),
              ("args", Json.obj [("text", Json.str "hi")])]].filterMap canonEntry).length =
      ([.obj [("type", Json.str "click")], .str "junk",
        .obj [("type", Json.str "say"),
              ("args", Json.obj [("text", Json.str "hi")])]].filter isActionCandidate).length ∧
     ([.obj [("type", Json.str "scan_page")]].filterMap canonEntry).length =
      ([.obj [("type", Json.str "scan_page")]].filter isActionCandidate).length ∧
     (∀ t fields, fieldOf fields "type" = some (Json.str t) →
       fieldOf fields "args" = none →
       canonEntry (.obj fields) = some { type := t, args := [] })) :=
  ⟨by decide, by decide, normalize_actions_spec _ _ (by decide) (by decide)⟩

/-- C7: with a positive limit, the bounded-window retrieval returns the empty
sequence when no log exists for the id, and when the log holds more than
limit turns it returns exactly the most recent limit turns in their original
chronological order; the store is returned unchanged (read-only). -/
theorem recent_window_spec (store : Store) (id : String) (limit : Nat)
    (h : 0 < limit) :
    (storeGet store id = none → recent_window id limit store = ([], store)) ∧
    (∀ log, storeGet store id = some log → limit < log.length →
      (recent_window id limit store).1.length = limit ∧
      log.take (log.length - limit) ++ (recent_window id limit store).1 = log ∧
      (recent_window id limit store).2 = store) := by
  have hne : ¬ limit = 0 := Nat.pos_iff_ne_zero.mp h
  constructor
  · intro hn
    simp [recent_window, get_history, pyLastSlice, hn, hne]
  · intro log hs hlen
    simp only [recent_window, get_history, pyLastSlice, hs, Option.getD_some,
      if_neg hne]
    refine ⟨?_, List.take_append_drop _ _, trivial⟩
    rw [List.length_drop]
    omega

def t7a : Turn := { role := "user", content := Json.str "a", timestamp := 1 }

def t7b : Turn := { role := "assistant", content := Json.str "b", timestamp := 2 }

def t7c : Turn := { role := "user", content := Json.str "c", timestamp := 3 }

def st7 : Store := [("c", [t7a, t7b, t7c])]

theorem recent_window_spec_witness :
    0 < 2 ∧ storeGet st7 "c" = some [t7a, t7b, t7c] ∧
    2 < ([t7a, t7b, t7c] : List Turn).length ∧
    ((recent_window "c" 2 st7).1.length = 2 ∧
     ([t7a, t7b, t7c] : List Turn).take (([t7a, t7b, t7c] : List Turn).length - 2) ++
       (recent_window "c" 2 st7).1 = [t7a, t7b, t7c] ∧
     (recent_window "c" 2 st7).2 = st7) :=
  ⟨by decide, rfl, by decide,
    (recent_window_spec st7 "c" 2 (by decide)).2 [t7a, t7b, t7c] rfl (by decide)⟩

/-- C8 (counterexample): a transient rate/quota failure of the first model
invocation is surfaced after exactly one invocation even though a second
attempt was available and would have succeeded: generate_content performs
no retry. -/
theorem generate_content_no_retry :
    generate_content
        ⟨true, [Except.error GenError.rateLimited,
                Except.ok "\x7b\"actions\": [], \"completed\": true\x7d"]⟩
        "prompt" =
      (Except.error GenError.rateLimited, 1) ∧
    ([Except.error GenError.rateLimited,
      Except.ok "\x7b\"actions\": [], \"completed\": true\x7d"] :
        List (Except GenError String))[1]? =
      some (Except.ok "\x7b\"actions\": [], \"completed\": true\x7d") :=
  ⟨rfl, rfl⟩

/-- C8 (amended): when the model is configured, generate_content performs
exactly one backend invocation and propagates its outcome — any error,
transient rate/quota included, is surfaced immediately with no retry and no
backoff. -/
theorem generate_content_single_attempt (env : Env) (prompt : String)
    (h : env.modelConfigured = true) :
    generate_content env prompt =
      (env.attempts.headD (Except.error (GenError.other "no response")), 1) := by
  simp [generate_content, h]

theorem generate_content_single_attempt_witness :
    (⟨true, [Except.error GenError.rateLimited]⟩ : Env).modelConfigured = true ∧
    generate_content ⟨true, [Except.error GenError.rateLimited]⟩ "p" =
      (([Except.error GenError.rateLimited] :
          List (Except GenError String)).headD
        (Except.error (GenError.other "no response")), 1) :=
  ⟨rfl, generate_content_single_attempt _ "p" rfl⟩

/-- The success and failure shapes of the final constructor call. -/
theorem mkConversationResponse_cases (resp : Json)
    (acts post : Option (List Action)) (follow completedArg : Json)
    (cid : Option String) :
    (∃ e, mkConversationResponse resp acts post follow completedArg cid =
      Except.error e) ∨
    (∃ s b, resp = Json.str s ∧ follow = Json.bool b ∧
      mkConversationResponse resp acts post follow completedArg cid =
        Except.ok { resp := { response := s, actions := acts,
                              post_analysis := post, requiresFollowUp := b,
                              conversation_id := cid },
                    completedArg := completedArg }) := by
  unfold mkConversationResponse
  split
  · exact Or.inr ⟨_, _, rfl, rfl, rfl⟩
  · exact Or.inl ⟨_, rfl⟩

/-- Every outcome of the post-inference pipeline leaves the store in one of
three shapes: an error raised before the assistant append (store unchanged
beyond the user turn), an error raised after it, or success with the
assistant turn appended and the spoken response equal to the stored
content. -/
theorem afterInference_shape (now : Nat) (cid : String) (store1 : Store)
    (text : String) :
    (∃ e, afterInference now cid store1 text = .error (e, store1)) ∨
    (∃ e rj, afterInference now cid store1 text =
      .error (e, add_message cid "assistant" rj now store1)) ∨
    (∃ outc rj, afterInference now cid store1 text =
      .ok (outc, add_message cid "assistant" rj now store1) ∧
      outc.resp.response = renderContent rj) := by
  unfold afterInference
  rcases hp : parse_llm_response text with e | parsed
  · exact Or.inl ⟨e, rfl⟩
  · cases parsed with
    | obj fields =>
      dsimp only [pyGet]
      rcases hn1 : normalize_actions ((fieldOf fields "actions").getD (.arr []))
        with e | va
      · exact Or.inl ⟨e, rfl⟩
      · rcases hn2 : normalize_actions
            ((fieldOf fields "post_analysis").getD (.arr [])) with e | vp
        · exact Or.inl ⟨e, rfl⟩
        · dsimp only
          rcases mkConversationResponse_cases
              ((fieldOf fields "response").getD (.str ""))
              (some va) (if vp.isEmpty then none else some vp)
              ((fieldOf fields "requiresFollowUp").getD (.bool false))
              ((fieldOf fields "completed").getD (.bool false))
              (some cid) with ⟨e, hmk⟩ | ⟨s, b, hs, hb, hmk⟩
          · rw [hmk]
            exact Or.inr (Or.inl ⟨e, (fieldOf fields "response").getD (.str ""), rfl⟩)
          · rw [hmk]
            refine Or.inr (Or.inr
              ⟨_, (fieldOf fields "response").getD (.str ""), rfl, ?_⟩)
            rw [hs]
            rfl
    | null => exact Or.inl ⟨_, rfl⟩
    | bool b => exact Or.inl ⟨_, rfl⟩
    | num l => exact Or.inl ⟨_, rfl⟩
    | str s => exact Or.inl ⟨_, rfl⟩
    | arr l => exact Or.inl ⟨_, rfl⟩

/-- C9 (counterexample): a turn that reaches inference but fails to parse
returns the generic apology to the caller while the store keeps only the
user turn: the spoken response is not appended, so stored history diverges
from what the user heard. -/
theorem error_path_skips_assistant_append :
    conversation ⟨true, [Except.ok "not json"]⟩ "U" 5
        { transcript := "hello", context := none, page_context := none,
          conversation_id := some "c1" } [] =
      Except.ok ({ resp := { response := "I had a problem processing that. Error: Expecting value",
                             actions := none, post_analysis := none,
                             requiresFollowUp := false,
                             conversation_id := some "c1" },
                   completedArg := Json.bool true },
        [("c1", [{ role := "user", content := Json.str "hello", timestamp := 5 }])],
        1) ∧
    (∀ t ∈ [({ role := "user", content := Json.str "hello", timestamp := 5 } : Turn)],
      ¬ t.role = "assistant") :=
  ⟨rfl, by decide⟩

/-- C9 (amended): on every turn that reaches inference, either the pipeline
reaches the post-normalization point and the assistant entry is appended to
the store before the result is returned (with the spoken response equal to
the stored content on full success), or an error is raised earlier and the
store keeps only the user turn while the generic apology is returned without
being appended. -/
theorem assistant_append_on_pipeline_success (env : Env) (uuid : String)
    (now : Nat) (req : ConversationRequest) (store : Store)
    (h1 : ¬ pyStrip req.transcript = "") (h2 : env.modelConfigured = true) :
    ∃ out store2 n,
      conversation env uuid now req store = Except.ok (out, store2, n) ∧
      ((∃ rj, store2 = add_message (candidateId uuid req) "assistant" rj now
            (add_message (candidateId uuid req) "user"
              (Json.str (pyStrip req.transcript)) now store) ∧
         (out.resp.response = renderContent rj ∨
          ∃ m, out.resp.response = "I had a problem processing that. Error: " ++ m)) ∨
       (store2 = add_message (candidateId uuid req) "user"
           (Json.str (pyStrip req.transcript)) now store ∧
        ∃ m, out.resp.response = "I had a problem processing that. Error: " ++ m)) := by
  have hb : (pyStrip req.transcript == "") = false := beq_eq_false_iff_ne.mpr h1
  simp only [conversation, hb, h2, Bool.not_true, Bool.false_eq_true, if_false,
    conversationTry, generate_content, if_true]
  rcases hh : env.attempts.headD (Except.error (GenError.other "no response"))
    with e | text
  · exact ⟨_, _, _, rfl, Or.inr ⟨rfl, (PyErr.genError e).msg, rfl⟩⟩
  · dsimp only
    rcases afterInference_shape now (candidateId uuid req)
        (add_message (candidateId uuid req) "user"
          (Json.str (pyStrip req.transcript)) now store) text
      with ⟨e, hsh⟩ | ⟨e, rj, hsh⟩ | ⟨outc, rj, hsh, hre⟩
    · rw [hsh]
      exact ⟨_, _, _, rfl, Or.inr ⟨rfl, e.msg, rfl⟩⟩
    · rw [hsh]
      exact ⟨_, _, _, rfl, Or.inl ⟨rj, rfl, Or.inr ⟨e.msg, rfl⟩⟩⟩
    · rw [hsh]
      exact ⟨outc, _, _, rfl, Or.inl ⟨rj, rfl, Or.inl hre⟩⟩

theorem assistant_append_on_pipeline_success_witness :
    ¬ pyStrip "hello" = "" ∧
    (⟨true, [Except.ok "\x7b\"response\": \"Done\", \"actions\": [], \"completed\": true\x7d"]⟩ :
        Env).modelConfigured = true ∧
    (∃ out store2 n,
      conversation
          ⟨true, [Except.ok "\x7b\"response\": \"Done\", \"actions\": [], \"completed\": true\x7d"]⟩
          "U" 4
          { transcript := "hello", context := none, page_context := none,
            conversation_id := some "c1" } [] =
        Except.ok (out, store2, n) ∧
      ((∃ rj, store2 = add_message
            (candidateId "U" { transcript := "hello", context := none,
                               page_context := none, conversation_id := some "c1" })
            "assistant" rj 4
            (add_message
              (candidateId "U" { transcript := "hello", context := none,
                                 page_context := none, conversation_id := some "c1" })
              "user" (Json.str (pyStrip "hello")) 4 []) ∧
         (out.resp.response = renderContent rj ∨
          ∃ m, out.resp.response = "I had a problem processing that. Error: " ++ m)) ∨
       (store2 = add_message
           (candidateId "U" { transcript := "hello", context := none,
                              page_context := none, conversation_id := some "c1" })
           "user" (Json.str (pyStrip "hello")) 4 [] ∧
        ∃ m, out.resp.response = "I had a problem processing that. Error: " ++ m))) :=
  ⟨by decide, rfl,
    assistant_append_on_pipeline_success
      ⟨true, [Except.ok "\x7b\"response\": \"Done\", \"actions\": [], \"completed\": true\x7d"]⟩
      "U" 4
      { transcript := "hello", context := none, page_context := none,
        conversation_id := some "c1" } [] (by decide) rfl⟩

/-- C10: on both early-exit paths (transcript empty after trimming, or the
inference backend not configured) the returned conversation_id is None even
when the caller supplied one, no inference call is made, and the store is
returned completely unchanged. -/
theorem early_exit_frame (env : Env) (uuid : String) (now : Nat)
    (req : ConversationRequest) (store : Store)
    (h : pyStrip req.transcript = "" ∨ env.modelConfigured = false) :
    ∃ out, conversation env uuid now req store = Except.ok (out, store, 0) ∧
      out.resp.conversation_id = none := by
  rcases h with h | h
  · refine ⟨{ resp := { response := "I didn\x27t catch that. Could you repeat?",
                        actions := none, post_analysis := none,
                        requiresFollowUp := false, conversation_id := none },
              completedArg := .bool true }, ?_, rfl⟩
    simp [conversation, h]
  · by_cases he : pyStrip req.transcript = ""
    · refine ⟨{ resp := { response := "I didn\x27t catch that. Could you repeat?",
                          actions := none, post_analysis := none,
                          requiresFollowUp := false, conversation_id := none },
                completedArg := .bool true }, ?_, rfl⟩
      simp [conversation, he]
    · refine ⟨{ resp := { response := "Gemini not configured. You said: " ++
                            pyStrip req.transcript,
                          actions := none, post_analysis := none,
                          requiresFollowUp := false, conversation_id := none },
                completedArg := .bool true }, ?_, rfl⟩
      have hb : (pyStrip req.transcript == "") = false := beq_eq_false_iff_ne.mpr he
      simp [conversation, hb, h]

theorem early_exit_frame_witness :
    (pyStrip "go" = "" ∨ (⟨false, []⟩ : Env).modelConfigured = false) ∧
    (∃ out, conversation ⟨false, []⟩ "u" 2
        { transcript := "go", context := none, page_context := none,
          conversation_id := some "abc" } [] =
      Except.ok (out, [], 0) ∧ out.resp.conversation_id = none) :=
  ⟨Or.inr rfl,
    early_exit_frame ⟨false, []⟩ "u" 2
      { transcript := "go", context := none, page_context := none,
        conversation_id := some "abc" } [] (Or.inr rfl)⟩

end Aeyes
